import Mathlib

/-!
Shallow embedding of `cloud/ssh/sshproviderclient.go` from the
cluster-api-provider-ssh repository.

External effects (network dial, key parsing, SSH handshake, remote command
execution, temporary files, scp) are modelled by an `Env` record that fixes
the outcome of each effectful step; every Go function becomes a pure Lean
function of the `Env`.  Each function additionally records a trace of the
observable actions it performed (the address passed to `net.Dial`, the TCP
keepalive arguments, the constructed `ssh.ClientConfig`, the resources the
call left open at return, filesystem events for temporary files), so that
resource-release and parameter claims can be stated as theorems.
-/

/-- Go `time.Duration` values are counted in nanoseconds; `time.Second`. -/
def timeSecond : Nat := 1000000000

/-- Go `time.Minute`. -/
def timeMinute : Nat := 60 * timeSecond

/-- `SshTimeoutSeconds = 600` from the `const` block. -/
def SshTimeoutSeconds : Nat := 600

/-- `SshTimeout = time.Duration(SshTimeoutSeconds) * time.Second`. -/
def SshTimeout : Nat := SshTimeoutSeconds * timeSecond

/-- `TCPKeepAlivePeriod = time.Duration(60) * time.Second`. -/
def TCPKeepAlivePeriod : Nat := 60 * timeSecond

/-- `GetKubeconfigCommand = "cat /etc/kubernetes/admin.conf"`. -/
def GetKubeconfigCommand : String := "cat /etc/kubernetes/admin.conf"

/-- `v1alpha1.SSHConfig`: the fields used by this client. -/
structure SSHConfig where
  host : String
  port : Int
  username : String
  secretName : String
deriving DecidableEq

/-- The `sshProviderClient` struct. -/
structure sshProviderClient where
  username : String
  address : String
  port : Int
  privateKey : String
  passPhrase : String
deriving DecidableEq

/-- `NewSSHProviderClient(privateKey, passPhrase, machineSSHConfig)`. -/
def NewSSHProviderClient (privateKey : String) (passPhrase : String)
    (machineSSHConfig : SSHConfig) : sshProviderClient :=
  { username := machineSSHConfig.username
    address := machineSSHConfig.host
    port := machineSSHConfig.port
    privateKey := privateKey
    passPhrase := passPhrase }

/-- Model of an `ssh.Signer`: how the key was obtained records which
library parse entry point produced it. -/
inductive Signer where
  | parsed (material : String)
  | parsedWithPassphrase (material : String) (passphrase : String)
deriving DecidableEq

/-- Model of `ssh.AuthMethod`: `ssh.PublicKeys(key)` for a parsed private
key, or `ssh.PublicKeysCallback(agent.NewClient(sock).Signers)` for the
agent-backed method. -/
inductive AuthMethod where
  | publicKeys (signer : Signer)
  | publicKeysCallback
deriving DecidableEq

/-- The `HostKeyCallback` closure literal inside `GetBasicSession`:
`func(hostname string, remote net.Addr, key ssh.PublicKey) error { return nil }`. -/
def gbsHostKeyCallback : String → String → String → Option String :=
  fun _ _ _ => none

/-- Model of `ssh.ClientConfig` (the fields set by `GetBasicSession`). -/
structure ClientConfig where
  user : String
  auth : List AuthMethod
  hostKeyCallback : String → String → String → Option String
  timeout : Nat

/-- Model of an `ssh.Session` handle. -/
structure Session where
  id : Nat
deriving DecidableEq

/-- Model of an `ssh.Client` handle (the authenticated Connection). -/
structure Client where
  id : Nat
deriving DecidableEq

/-- Outcomes of the external, effectful steps: each field fixes what the
network, the key parser, the agent socket, the remote host and the local
filesystem do when the code reaches the corresponding call.  `none` means
the step succeeds; `some e` is the error it returns. -/
structure Env where
  /-- `net.Dial("tcp", addr)`, keyed by the address argument. -/
  dial : String → Option String
  /-- `c.(*net.TCPConn).SetKeepAlive(true)`. -/
  setKeepAliveErr : Option String
  /-- `c.(*net.TCPConn).SetKeepAlivePeriod(TCPKeepAlivePeriod)`. -/
  setKeepAlivePeriodErr : Option String
  /-- `ssh.ParsePrivateKey(buffer)`, keyed by the key material. -/
  parsePrivateKeyErr : String → Option String
  /-- `ssh.ParsePrivateKeyWithPassphrase(buffer, passPhrase)`. -/
  parsePrivateKeyWithPassphraseErr : String → String → Option String
  /-- whether `net.Dial("unix", os.Getenv("SSH_AUTH_SOCK"))` succeeds. -/
  agentReachable : Bool
  /-- `ssh.NewClientConn(tcpConn, s.address, clientConfig)` (the handshake). -/
  newClientConnErr : Option String
  /-- `client.NewSession()`. -/
  newSessionErr : Option String
  /-- `session.CombinedOutput(cmd)`: combined output bytes and remote exit status. -/
  combinedOutput : String → List Nat × Nat
  /-- `session.Output(cmd)`: captured standard-output bytes and remote exit status. -/
  output : String → List Nat × Nat
  /-- `ioutil.TempFile(os.TempDir(), "*")`: the created file's name, or an error. -/
  tempFileResult : Except String String
  /-- `tempFile.Write([]byte(scriptLines))`, keyed by the written content. -/
  tempWriteErr : String → Option String
  /-- `scp.CopyPath(tempFile.Name(), remotePath, session)`, keyed by the
  local file name and the remote destination path. -/
  scpErr : String → String → Option String

/-- The error value carried by the `ssh` library's `ExitError` for a remote
exit status: non-nil exactly when the remote exit status is non-zero.  This
models how `Session.Output` / `Session.CombinedOutput` report the status. -/
def exitErr (status : Nat) : Option String :=
  if status = 0 then none else some ("Process exited with status " ++ toString status)

/-- `PublicKeyFile(privateKey, passPhrase)`: parse plainly when the
passphrase is empty, otherwise parse with the passphrase; on success wrap
the signer in `ssh.PublicKeys`. -/
def PublicKeyFile (env : Env) (privateKey : String) (passPhrase : String) :
    Except String AuthMethod :=
  if passPhrase = "" then
    match env.parsePrivateKeyErr privateKey with
    | some e => Except.error e
    | none => Except.ok (AuthMethod.publicKeys (Signer.parsed privateKey))
  else
    match env.parsePrivateKeyWithPassphraseErr privateKey passPhrase with
    | some e => Except.error e
    | none =>
      Except.ok (AuthMethod.publicKeys
        (Signer.parsedWithPassphrase privateKey passPhrase))

/-- `SSHAgent()`: an agent-backed method when the unix socket named by
`SSH_AUTH_SOCK` is reachable, `nil` otherwise. -/
def SSHAgent (env : Env) : Option AuthMethod :=
  if env.agentReachable then some AuthMethod.publicKeysCallback else none

/-- What `GetBasicSession` returned and did.  `session`/`client`/`err`
mirror the Go return triple (`nil` = `none`).  The remaining fields record
the observable actions: the address handed to `net.Dial`, the arguments of
the TCP keepalive calls (if reached), the constructed `ssh.ClientConfig`
(if reached), whether `SSHAgent()` was consulted, and the tick period of
the spawned keepalive goroutine (if spawned). -/
structure GBSOut where
  session : Option Session
  client : Option Client
  err : Option String
  dialedAddr : String
  tcpKeepAliveArg : Option Bool
  tcpKeepAlivePeriodArg : Option Nat
  clientConfig : Option ClientConfig
  agentConsulted : Bool
  keepaliveTickPeriod : Option Nat

/-- `GetBasicSession(s)`, translated branch by branch:
dial (with TCP keepalive setup) → auth-method list construction
(`PublicKeyFile` only when `s.privateKey != ""`, then `SSHAgent()`) →
`ssh.NewClientConn` handshake → keepalive goroutine → `client.NewSession()`.
On `NewSession` failure the Go code returns `(nil, client, err)`. -/
def GetBasicSession (env : Env) (s : sshProviderClient) : GBSOut :=
  match env.dial s.address with
  | some e =>
    { session := none, client := none, err := some e, dialedAddr := s.address
      tcpKeepAliveArg := none, tcpKeepAlivePeriodArg := none
      clientConfig := none, agentConsulted := false, keepaliveTickPeriod := none }
  | none =>
    match env.setKeepAliveErr with
    | some e =>
      { session := none, client := none, err := some e, dialedAddr := s.address
        tcpKeepAliveArg := some true, tcpKeepAlivePeriodArg := none
        clientConfig := none, agentConsulted := false, keepaliveTickPeriod := none }
    | none =>
      match env.setKeepAlivePeriodErr with
      | some e =>
        { session := none, client := none, err := some e, dialedAddr := s.address
          tcpKeepAliveArg := some true
          tcpKeepAlivePeriodArg := some TCPKeepAlivePeriod
          clientConfig := none, agentConsulted := false
          keepaliveTickPeriod := none }
      | none =>
        match (if s.privateKey = "" then Except.ok []
               else Except.map (fun m => [m])
                 (PublicKeyFile env s.privateKey s.passPhrase)) with
        | Except.error e =>
          { session := none, client := none, err := some e
            dialedAddr := s.address, tcpKeepAliveArg := some true
            tcpKeepAlivePeriodArg := some TCPKeepAlivePeriod
            clientConfig := none, agentConsulted := false
            keepaliveTickPeriod := none }
        | Except.ok keyMs =>
          match env.newClientConnErr with
          | some e =>
            { session := none, client := none, err := some e
              dialedAddr := s.address, tcpKeepAliveArg := some true
              tcpKeepAlivePeriodArg := some TCPKeepAlivePeriod
              clientConfig := some { user := s.username
                                     auth := keyMs ++ (SSHAgent env).toList
                                     hostKeyCallback := gbsHostKeyCallback
                                     timeout := SshTimeout }
              agentConsulted := true, keepaliveTickPeriod := none }
          | none =>
            match env.newSessionErr with
            | some e =>
              { session := none, client := some { id := 0 }, err := some e
                dialedAddr := s.address, tcpKeepAliveArg := some true
                tcpKeepAlivePeriodArg := some TCPKeepAlivePeriod
                clientConfig := some { user := s.username
                                       auth := keyMs ++ (SSHAgent env).toList
                                       hostKeyCallback := gbsHostKeyCallback
                                       timeout := SshTimeout }
                agentConsulted := true
                keepaliveTickPeriod := some timeMinute }
            | none =>
              { session := some { id := 1 }, client := some { id := 0 }
                err := none, dialedAddr := s.address
                tcpKeepAliveArg := some true
                tcpKeepAlivePeriodArg := some TCPKeepAlivePeriod
                clientConfig := some { user := s.username
                                       auth := keyMs ++ (SSHAgent env).toList
                                       hostKeyCallback := gbsHostKeyCallback
                                       timeout := SshTimeout }
                agentConsulted := true
                keepaliveTickPeriod := some timeMinute }

/-- Result of `ProcessCMD`: the returned error, plus the sessions and
clients created by the call that are still open when it returns. -/
structure CallOut where
  err : Option String
  openSessions : List Session
  openClients : List Client
deriving DecidableEq

/-- `ProcessCMD(cmd)`.  On a `GetBasicSession` error the Go code returns
before the `defer session.Close()` / `defer connection.Close()` lines, so
whatever `GetBasicSession` returned stays open; on the later paths both
deferred closes run before the return. -/
def ProcessCMD (env : Env) (s : sshProviderClient) (cmd : String) : CallOut :=
  match (GetBasicSession env s).err with
  | some e =>
    { err := some ("failed to create a session: " ++ e)
      openSessions := (GetBasicSession env s).session.toList
      openClients := (GetBasicSession env s).client.toList }
  | none =>
    -- outputBytes is logged via glog and otherwise unused
    { err := exitErr (env.combinedOutput cmd).2
      openSessions := [], openClients := [] }

/-- Result of `ProcessCMDWithOutput`. -/
structure OutputCallOut where
  bytes : Option (List Nat)
  err : Option String
  openSessions : List Session
  openClients : List Client
deriving DecidableEq

/-- `ProcessCMDWithOutput(cmd)`: returns `session.Output(cmd)`'s bytes and
error unchanged.  The deferred closes behave as in `ProcessCMD`. -/
def ProcessCMDWithOutput (env : Env) (s : sshProviderClient) (cmd : String) :
    OutputCallOut :=
  match (GetBasicSession env s).err with
  | some e =>
    { bytes := none
      err := some ("failed to create session: " ++ e)
      openSessions := (GetBasicSession env s).session.toList
      openClients := (GetBasicSession env s).client.toList }
  | none =>
    { bytes := some (env.output cmd).1
      err := exitErr (env.output cmd).2
      openSessions := [], openClients := [] }

/-- Filesystem events performed on local temporary files. -/
inductive FsEvent where
  | create (name : String)
  | remove (name : String)
deriving DecidableEq

/-- Replay filesystem events over the set of files on disk. -/
def fsApply : List String → List FsEvent → List String
  | disk, [] => disk
  | disk, FsEvent.create n :: rest => fsApply (disk ++ [n]) rest
  | disk, FsEvent.remove n :: rest => fsApply (disk.erase n) rest

/-- Result of `WriteFile`: the returned error, the resources still open at
return, and the temporary-file events the call performed, in order. -/
structure WriteFileOut where
  err : Option String
  openSessions : List Session
  openClients : List Client
  fsTrace : List FsEvent
deriving DecidableEq

/-- `WriteFile(scriptLines, remotePath)`: session setup (with the same
deferred closes as `ProcessCMD`), then `ioutil.TempFile` with
`defer os.Remove(tempFile.Name())` registered immediately after creation,
then the write into the temporary file, then `scp.CopyPath`.  Because the
removal is deferred at creation time, every return after a successful
creation carries the matching `remove` event. -/
def WriteFile (env : Env) (s : sshProviderClient)
    (scriptLines : String) (remotePath : String) : WriteFileOut :=
  match (GetBasicSession env s).err with
  | some e =>
    { err := some ("failed to create a session: " ++ e)
      openSessions := (GetBasicSession env s).session.toList
      openClients := (GetBasicSession env s).client.toList
      fsTrace := [] }
  | none =>
    match env.tempFileResult with
    | Except.error e =>
      { err := some e, openSessions := [], openClients := [], fsTrace := [] }
    | Except.ok name =>
      match env.tempWriteErr scriptLines with
      | some e =>
        { err := some e, openSessions := [], openClients := []
          fsTrace := [FsEvent.create name, FsEvent.remove name] }
      | none =>
        match env.scpErr name remotePath with
        | some e =>
          { err := some e, openSessions := [], openClients := []
            fsTrace := [FsEvent.create name, FsEvent.remove name] }
        | none =>
          { err := none, openSessions := [], openClients := []
            fsTrace := [FsEvent.create name, FsEvent.remove name] }

/-- Go's `string(b)` on a `[]byte`: byte-for-byte conversion, with a `nil`
slice giving the empty string. -/
def goString : Option (List Nat) → List Nat
  | none => []
  | some b => b

/-- Result of `GetKubeConfig`: the returned text (as Go string bytes), the
error, and the command string the call ran. -/
structure KubeConfigOut where
  text : List Nat
  err : Option String
  cmdRun : String
deriving DecidableEq

/-- `GetKubeConfig()`: run `GetKubeconfigCommand` through
`ProcessCMDWithOutput`; on error return `("", err)`, else `string(bytes)`. -/
def GetKubeConfig (env : Env) (s : sshProviderClient) : KubeConfigOut :=
  match (ProcessCMDWithOutput env s GetKubeconfigCommand).err with
  | some e => { text := [], err := some e, cmdRun := GetKubeconfigCommand }
  | none =>
    { text := goString (ProcessCMDWithOutput env s GetKubeconfigCommand).bytes
      err := none, cmdRun := GetKubeconfigCommand }

/-- Result of `GetKubeConfigBytes`. -/
structure KubeConfigBytesOut where
  bytes : Option (List Nat)
  err : Option String
  cmdRun : String
deriving DecidableEq

/-- `GetKubeConfigBytes()`: run `GetKubeconfigCommand` through
`ProcessCMDWithOutput`; on error return `(nil, err)`, else the bytes. -/
def GetKubeConfigBytes (env : Env) (s : sshProviderClient) : KubeConfigBytesOut :=
  match (ProcessCMDWithOutput env s GetKubeconfigCommand).err with
  | some e => { bytes := none, err := some e, cmdRun := GetKubeconfigCommand }
  | none =>
    { bytes := (ProcessCMDWithOutput env s GetKubeconfigCommand).bytes
      err := none, cmdRun := GetKubeconfigCommand }

/-- What the keepalive goroutine did over a run: how many probes it sent,
whether it returned (terminated), whether it ever closed the Connection,
and whether it propagated any error. -/
structure KeepaliveOutcome where
  probesSent : Nat
  terminated : Bool
  closedConnection : Bool
  propagatedErr : Option String
deriving DecidableEq

/-- The keepalive goroutine spawned by `GetBasicSession`, run against a
finite schedule of ticks; each list element is the outcome the transport
gives that tick's `client.Conn.SendRequest("keepalive", true, nil)`.
Per iteration the loop waits for the ticker, sends one probe, and on a
send error does a bare `return`; it never closes the client and never
reports the error anywhere. An empty remaining schedule means the task is
still blocked waiting on the next tick. -/
def keepaliveTask : List (Option String) → KeepaliveOutcome
  | [] =>
    { probesSent := 0, terminated := false, closedConnection := false
      propagatedErr := none }
  | some _ :: _ =>
    { probesSent := 1, terminated := true, closedConnection := false
      propagatedErr := none }
  | none :: rest =>
    { probesSent := (keepaliveTask rest).probesSent + 1
      terminated := (keepaliveTask rest).terminated
      closedConnection := (keepaliveTask rest).closedConnection
      propagatedErr := (keepaliveTask rest).propagatedErr }

/-! Concrete test fixtures. -/

/-- A concrete machine SSH config with distinct host and port. -/
def cfgExample : SSHConfig :=
  { host := "10.0.0.5", port := 22, username := "core", secretName := "keys" }

/-- A client built from `cfgExample` with non-empty key material and no
passphrase. -/
def sKey : sshProviderClient := NewSSHProviderClient "KEY" "" cfgExample

/-- An environment in which every external step succeeds. -/
def envAll : Env :=
  { dial := fun _ => none
    setKeepAliveErr := none
    setKeepAlivePeriodErr := none
    parsePrivateKeyErr := fun _ => none
    parsePrivateKeyWithPassphraseErr := fun _ _ => none
    agentReachable := true
    newClientConnErr := none
    newSessionErr := none
    combinedOutput := fun _ => ([], 0)
    output := fun _ => ([], 0)
    tempFileResult := Except.ok "/tmp/tmp123"
    tempWriteErr := fun _ => none
    scpErr := fun _ _ => none }

/-- Everything succeeds except `client.NewSession()`. -/
def envNoSession : Env := { envAll with newSessionErr := some "no session" }

/-- Everything succeeds except parsing the (unencrypted) private key. -/
def envBadKey : Env :=
  { envAll with parsePrivateKeyErr := fun _ => some "ssh: no key found" }

/-- Remote command writes `hi\n` to stdout and exits 1. -/
def envExit1 : Env := { envAll with output := fun _ => ([104, 105, 10], 1) }

/-- Remote command writes one byte of output and exits 2. -/
def envExit2 : Env := { envAll with output := fun _ => ([55], 2) }

/-- The `ssh.ClientConfig` that `GetBasicSession envAll sKey` builds. -/
def cfgW : ClientConfig :=
  { user := "core"
    auth := [AuthMethod.publicKeys (Signer.parsed "KEY"), AuthMethod.publicKeysCallback]
    hostKeyCallback := gbsHostKeyCallback
    timeout := SshTimeout }

/-! Helper lemmas. -/

/-- `exitErr` is non-nil exactly for a non-zero remote exit status. -/
theorem exitErr_ne_none (n : Nat) : exitErr n ≠ none ↔ n ≠ 0 := by
  unfold exitErr
  split <;> simp_all

/-- Inverting the auth-method-list construction: when the `if`/`PublicKeyFile`
step succeeds, the resulting key-method list is determined by the key
material and passphrase. -/
theorem keyMethods_of_ok (env : Env) (pk pp : String) (l : List AuthMethod)
    (h : (if pk = "" then Except.ok []
          else Except.map (fun m => [m]) (PublicKeyFile env pk pp)) = Except.ok l) :
    l = if pk = "" then []
        else [AuthMethod.publicKeys
          (if pp = "" then Signer.parsed pk else Signer.parsedWithPassphrase pk pp)] := by
  by_cases hpk : pk = ""
  · simp [hpk] at h ⊢
    exact h
  · simp [hpk, PublicKeyFile] at h ⊢
    by_cases hpp : pp = ""
    · simp [hpp] at h ⊢
      cases hpe : env.parsePrivateKeyErr pk <;> simp [hpe, Except.map] at h
      exact h.symm
    · simp [hpp] at h ⊢
      cases hpe : env.parsePrivateKeyWithPassphraseErr pk pp <;>
        simp [hpe, Except.map] at h
      exact h.symm

/-- Every `ssh.ClientConfig` that `GetBasicSession` builds has this exact
shape: the caller's username, the key method (if any) followed by the agent
method (if any), the unconditionally accepting host-key callback, and the
fixed handshake timeout. -/
theorem gbs_config_char (env : Env) (s : sshProviderClient) (cfg : ClientConfig)
    (h : (GetBasicSession env s).clientConfig = some cfg) :
    cfg = { user := s.username
            auth := (if s.privateKey = "" then []
                     else [AuthMethod.publicKeys
                       (if s.passPhrase = "" then Signer.parsed s.privateKey
                        else Signer.parsedWithPassphrase s.privateKey s.passPhrase)])
                    ++ (SSHAgent env).toList
            hostKeyCallback := gbsHostKeyCallback
            timeout := SshTimeout } := by
  unfold GetBasicSession at h
  split at h
  · exact Option.noConfusion h
  · split at h
    · exact Option.noConfusion h
    · split at h
      · exact Option.noConfusion h
      · split at h
        · exact Option.noConfusion h
        · rename_i keyMs heq
          have hkm := keyMethods_of_ok env s.privateKey s.passPhrase keyMs heq
          split at h
          · have h' := Option.some.inj h
            rw [← h', hkm]
          · split at h
            · have h' := Option.some.inj h
              rw [← h', hkm]
            · have h' := Option.some.inj h
              rw [← h', hkm]

/-- The address handed to `net.Dial` is always exactly `s.address`. -/
theorem gbs_dialedAddr (env : Env) (s : sshProviderClient) :
    (GetBasicSession env s).dialedAddr = s.address := by
  unfold GetBasicSession
  repeat' split
  all_goals rfl

/-- Whenever `SetKeepAlivePeriod` is reached, its argument is
`TCPKeepAlivePeriod`. -/
theorem gbs_tcpPeriod_inv (env : Env) (s : sshProviderClient) (p : Nat)
    (h : (GetBasicSession env s).tcpKeepAlivePeriodArg = some p) :
    p = TCPKeepAlivePeriod := by
  unfold GetBasicSession at h
  repeat' split at h
  all_goals first
    | exact Option.noConfusion h
    | exact (Option.some.inj h).symm

/-- Whenever the keepalive goroutine is spawned, its ticker period is
`time.Minute`. -/
theorem gbs_tick_inv (env : Env) (s : sshProviderClient) (p : Nat)
    (h : (GetBasicSession env s).keepaliveTickPeriod = some p) :
    p = timeMinute := by
  unfold GetBasicSession at h
  repeat' split at h
  all_goals first
    | exact Option.noConfusion h
    | exact (Option.some.inj h).symm

/-- A create immediately balanced by a deferred remove leaves no file and
pairs every created name with a removal. -/
theorem create_remove_clean (name : String) :
    fsApply [] [FsEvent.create name, FsEvent.remove name] = [] ∧
    ∀ n, FsEvent.create n ∈ [FsEvent.create name, FsEvent.remove name] →
      FsEvent.remove n ∈ [FsEvent.create name, FsEvent.remove name] := by
  constructor
  · simp [fsApply]
  · intro n hn
    simp at hn ⊢
    exact hn

/-! Claim theorems. -/

/-- Claim C1 (refuted, code bug): when `client.NewSession()` fails after a
successful handshake, `ProcessCMD`, `ProcessCMDWithOutput` and `WriteFile`
all return the error while the Connection created for the call is still
open — the deferred `connection.Close()` is registered only after the error
check, so it never runs on this path.  On the all-success run both the
Session and the Connection are closed before return. -/
theorem C1_connection_leak_on_session_failure :
    (ProcessCMD envNoSession sKey "ls").err
      = some "failed to create a session: no session" ∧
    (ProcessCMD envNoSession sKey "ls").openClients = [Client.mk 0] ∧
    (ProcessCMDWithOutput envNoSession sKey "ls").openClients = [Client.mk 0] ∧
    (WriteFile envNoSession sKey "echo hi" "/remote/path").openClients
      = [Client.mk 0] ∧
    (ProcessCMD envAll sKey "ls").openClients = [] ∧
    (ProcessCMD envAll sKey "ls").openSessions = [] :=
  ⟨rfl, rfl, rfl, rfl, rfl, rfl⟩

/-- Claim C2 (refuted, code bug): `GetBasicSession` passes exactly
`s.address` — the `SSHConfig.Host` alone — to `net.Dial`; the stored port
is never part of the dialed address.  At the concrete endpoint
`{host := "10.0.0.5", port := 22}` the dialed address is `"10.0.0.5"`,
not `"10.0.0.5:22"`. -/
theorem C2_dials_host_without_port :
    (∀ env s, (GetBasicSession env s).dialedAddr = s.address) ∧
    (∀ pk pp c, (NewSSHProviderClient pk pp c).address = c.host) ∧
    (∀ pk pp c, (NewSSHProviderClient pk pp c).port = c.port) ∧
    (GetBasicSession envAll sKey).dialedAddr = "10.0.0.5" ∧
    cfgExample.port = 22 :=
  ⟨fun env s => gbs_dialedAddr env s, fun _ _ _ => rfl, fun _ _ _ => rfl, rfl, rfl⟩

/-- Claim C3 (confirmed): over an established Session,
`ProcessCMDWithOutput` returns the captured standard-output bytes whatever
the remote exit status is, and its error is non-nil exactly when the
remote exit status is non-zero. -/
theorem C3_output_passthrough (env : Env) (s : sshProviderClient) (cmd : String)
    (h : (GetBasicSession env s).err = none) :
    (ProcessCMDWithOutput env s cmd).bytes = some (env.output cmd).1 ∧
    ((ProcessCMDWithOutput env s cmd).err ≠ none ↔ (env.output cmd).2 ≠ 0) := by
  unfold ProcessCMDWithOutput
  rw [h]
  exact ⟨rfl, exitErr_ne_none _⟩

/-- Witness for C3: a command that prints `hi\n` and exits 1 still yields
its captured bytes, with a non-nil error. -/
theorem C3_output_passthrough_witness :
    (GetBasicSession envExit1 sKey).err = none ∧
    (ProcessCMDWithOutput envExit1 sKey "false").bytes = some [104, 105, 10] ∧
    ((ProcessCMDWithOutput envExit1 sKey "false").err ≠ none ↔
      (envExit1.output "false").2 ≠ 0) := by
  have h := C3_output_passthrough envExit1 sKey "false" rfl
  exact ⟨rfl, h.1, h.2⟩

/-- Claim C4 (confirmed): with non-empty key material, a key-parse failure
makes `GetBasicSession` return that parse error with no Session, no
Connection, no constructed client config, and without ever consulting the
agent. -/
theorem C4_key_parse_error_aborts (env : Env) (s : sshProviderClient) (e : String)
    (hk : s.privateKey ≠ "")
    (hp : PublicKeyFile env s.privateKey s.passPhrase = Except.error e)
    (hdial : env.dial s.address = none)
    (hka : env.setKeepAliveErr = none)
    (hkp : env.setKeepAlivePeriodErr = none) :
    (GetBasicSession env s).err = some e ∧
    (GetBasicSession env s).session = none ∧
    (GetBasicSession env s).client = none ∧
    (GetBasicSession env s).agentConsulted = false ∧
    (GetBasicSession env s).clientConfig = none := by
  unfold GetBasicSession
  rw [hdial, hka, hkp, if_neg hk, hp]
  exact ⟨rfl, rfl, rfl, rfl, rfl⟩

/-- Witness for C4: an unparsable unencrypted key aborts the attempt. -/
theorem C4_key_parse_error_aborts_witness :
    (GetBasicSession envBadKey sKey).err = some "ssh: no key found" ∧
    (GetBasicSession envBadKey sKey).session = none ∧
    (GetBasicSession envBadKey sKey).client = none ∧
    (GetBasicSession envBadKey sKey).agentConsulted = false ∧
    (GetBasicSession envBadKey sKey).clientConfig = none :=
  C4_key_parse_error_aborts envBadKey sKey "ssh: no key found"
    (by decide) rfl rfl rfl rfl

/-- Claim C5 (confirmed): on every path through `WriteFile` — session
failure, temporary-file creation failure, write failure, copy failure, or
success — no temporary file created by the call remains on disk at return,
and every created file has a matching removal in the call's trace. -/
theorem C5_tempfile_cleanup (env : Env) (s : sshProviderClient)
    (scriptLines remotePath : String) :
    fsApply [] (WriteFile env s scriptLines remotePath).fsTrace = [] ∧
    ∀ n, FsEvent.create n ∈ (WriteFile env s scriptLines remotePath).fsTrace →
      FsEvent.remove n ∈ (WriteFile env s scriptLines remotePath).fsTrace := by
  unfold WriteFile
  repeat' split
  all_goals first
    | exact ⟨rfl, by intro n hn; simp at hn⟩
    | exact create_remove_clean _

/-- Witness for C5: on a successful transfer the created temporary file is
removed before return. -/
theorem C5_tempfile_cleanup_witness :
    fsApply [] (WriteFile envAll sKey "echo hi" "/remote/path").fsTrace = [] ∧
    FsEvent.remove "/tmp/tmp123" ∈ (WriteFile envAll sKey "echo hi" "/remote/path").fsTrace := by
  have h := C5_tempfile_cleanup envAll sKey "echo hi" "/remote/path"
  exact ⟨h.1, h.2 "/tmp/tmp123" (by decide)⟩

/-- Claim C6 (confirmed): the keepalive task never closes the Connection
and never propagates an error; while sends succeed it sends exactly one
probe per tick and keeps running; on the first failed send it has sent one
probe for each elapsed tick (including the failing one) and terminates
immediately, ignoring any later ticks; its ticker period is `time.Minute`
whenever `GetBasicSession` spawns it. -/
theorem C6_keepalive_fire_and_forget :
    (∀ ticks : List (Option String),
       (keepaliveTask ticks).closedConnection = false ∧
       (keepaliveTask ticks).propagatedErr = none) ∧
    (∀ ticks : List (Option String), (∀ o ∈ ticks, o = none) →
       (keepaliveTask ticks).probesSent = ticks.length ∧
       (keepaliveTask ticks).terminated = false) ∧
    (∀ (pre rest : List (Option String)) (e : String), (∀ o ∈ pre, o = none) →
       (keepaliveTask (pre ++ some e :: rest)).probesSent = pre.length + 1 ∧
       (keepaliveTask (pre ++ some e :: rest)).terminated = true) ∧
    (∀ env s, (GetBasicSession env s).keepaliveTickPeriod = none ∨
       (GetBasicSession env s).keepaliveTickPeriod = some timeMinute) ∧
    timeMinute = 60 * timeSecond := by
  refine ⟨?_, ?_, ?_, ?_, rfl⟩
  · intro ticks
    induction ticks with
    | nil => exact ⟨rfl, rfl⟩
    | cons o rest ih =>
      cases o with
      | none => exact ih
      | some e => exact ⟨rfl, rfl⟩
  · intro ticks h
    induction ticks with
    | nil => exact ⟨rfl, rfl⟩
    | cons o rest ih =>
      have ho : o = none := h o (List.mem_cons_self o rest)
      subst ho
      have ih' := ih (fun o hm => h o (List.mem_cons_of_mem _ hm))
      exact ⟨by simp [keepaliveTask, ih'.1], ih'.2⟩
  · intro pre rest e h
    induction pre with
    | nil => exact ⟨rfl, rfl⟩
    | cons o pre ih =>
      have ho : o = none := h o (List.mem_cons_self o pre)
      subst ho
      have ih' := ih (fun o hm => h o (List.mem_cons_of_mem _ hm))
      exact ⟨by simp [keepaliveTask, ih'.1], ih'.2⟩
  · intro env s
    cases hk : (GetBasicSession env s).keepaliveTickPeriod with
    | none => exact Or.inl rfl
    | some p => exact Or.inr (by rw [gbs_tick_inv env s p hk])

/-- Witness for C6: with one good tick, a failing second tick and a further
scheduled tick, the task sends exactly two probes, terminates, closes
nothing and propagates nothing; with two good ticks it sends two probes and
keeps running. -/
theorem C6_keepalive_fire_and_forget_witness :
    (keepaliveTask [none, some "connection closed", none]).probesSent = 2 ∧
    (keepaliveTask [none, some "connection closed", none]).terminated = true ∧
    (keepaliveTask [none, some "connection closed", none]).closedConnection = false ∧
    (keepaliveTask [none, some "connection closed", none]).propagatedErr = none ∧
    (keepaliveTask [none, none]).probesSent = 2 ∧
    (keepaliveTask [none, none]).terminated = false ∧
    (GetBasicSession envAll sKey).keepaliveTickPeriod = some timeMinute := by
  obtain ⟨h1, h2, h3, -, -⟩ := C6_keepalive_fire_and_forget
  have ha := h3 [none] [none] "connection closed" (by simp)
  have hb := h2 [none, none] (by simp)
  exact ⟨ha.1, ha.2, (h1 _).1, (h1 _).2, hb.1, hb.2, rfl⟩

/-- Claim C7 (confirmed): the constructed authentication-method list is the
private-key method (plain-parsed for an empty passphrase, otherwise
passphrase-unlocked) exactly when key material is non-empty, followed by
the agent-backed method exactly when the agent socket is reachable; with
neither, the list is empty. -/
theorem C7_auth_method_list (env : Env) (s : sshProviderClient)
    (cfg : ClientConfig) (h : (GetBasicSession env s).clientConfig = some cfg) :
    cfg.auth = (if s.privateKey = "" then []
                else [AuthMethod.publicKeys
                  (if s.passPhrase = "" then Signer.parsed s.privateKey
                   else Signer.parsedWithPassphrase s.privateKey s.passPhrase)])
               ++ (if env.agentReachable then [AuthMethod.publicKeysCallback]
                   else []) := by
  rw [gbs_config_char env s cfg h]
  unfold SSHAgent
  by_cases ha : env.agentReachable <;> simp [ha]

/-- Witness for C7: non-empty key material without passphrase plus a
reachable agent yields the plain key method followed by the agent method. -/
theorem C7_auth_method_list_witness :
    (GetBasicSession envAll sKey).clientConfig = some cfgW ∧
    cfgW.auth = [AuthMethod.publicKeys (Signer.parsed "KEY"),
                 AuthMethod.publicKeysCallback] := by
  have h := C7_auth_method_list envAll sKey cfgW rfl
  refine ⟨rfl, ?_⟩
  rw [h]
  rfl

/-- Claim C8 (confirmed): every client config built by `GetBasicSession`
carries the host-identity callback that returns `nil` for every hostname,
remote address and presented key. -/
theorem C8_hostkey_unconditional_accept (env : Env) (s : sshProviderClient)
    (cfg : ClientConfig) (h : (GetBasicSession env s).clientConfig = some cfg) :
    ∀ hostname remote key, cfg.hostKeyCallback hostname remote key = none := by
  rw [gbs_config_char env s cfg h]
  intro _ _ _
  rfl

/-- Witness for C8: the callback of a concretely built config accepts a
concrete host, address and key. -/
theorem C8_hostkey_unconditional_accept_witness :
    (GetBasicSession envAll sKey).clientConfig = some cfgW ∧
    cfgW.hostKeyCallback "example.com" "192.0.2.1:22" "AAAAB3Nza" = none :=
  ⟨rfl, C8_hostkey_unconditional_accept envAll sKey cfgW rfl
    "example.com" "192.0.2.1:22" "AAAAB3Nza"⟩

/-- Claim C9 (confirmed): the fixed protocol parameters — 600-second
handshake timeout, 60-second TCP keepalive probe period, 60-second
protocol keepalive tick period, and the fixed kubeconfig command — hold
for every connection attempt and every kubeconfig retrieval. -/
theorem C9_fixed_protocol_parameters :
    SshTimeoutSeconds = 600 ∧
    SshTimeout = 600 * timeSecond ∧
    TCPKeepAlivePeriod = 60 * timeSecond ∧
    timeMinute = 60 * timeSecond ∧
    GetKubeconfigCommand = "cat /etc/kubernetes/admin.conf" ∧
    (∀ env s cfg, (GetBasicSession env s).clientConfig = some cfg →
       cfg.timeout = SshTimeout) ∧
    (∀ env s, (GetBasicSession env s).tcpKeepAlivePeriodArg = none ∨
       (GetBasicSession env s).tcpKeepAlivePeriodArg = some TCPKeepAlivePeriod) ∧
    (∀ env s, (GetBasicSession env s).keepaliveTickPeriod = none ∨
       (GetBasicSession env s).keepaliveTickPeriod = some timeMinute) ∧
    (∀ env s, (GetKubeConfig env s).cmdRun = GetKubeconfigCommand) ∧
    (∀ env s, (GetKubeConfigBytes env s).cmdRun = GetKubeconfigCommand) := by
  refine ⟨rfl, rfl, rfl, rfl, rfl, ?_, ?_, ?_, ?_, ?_⟩
  · intro env s cfg h
    rw [gbs_config_char env s cfg h]
  · intro env s
    cases hk : (GetBasicSession env s).tcpKeepAlivePeriodArg with
    | none => exact Or.inl rfl
    | some p => exact Or.inr (by rw [gbs_tcpPeriod_inv env s p hk])
  · intro env s
    cases hk : (GetBasicSession env s).keepaliveTickPeriod with
    | none => exact Or.inl rfl
    | some p => exact Or.inr (by rw [gbs_tick_inv env s p hk])
  · intro env s
    unfold GetKubeConfig
    split <;> rfl
  · intro env s
    unfold GetKubeConfigBytes
    split <;> rfl

/-- Witness for C9: a concretely built config carries the 600-second
timeout, and the keepalive periods are reached with their fixed values. -/
theorem C9_fixed_protocol_parameters_witness :
    (GetBasicSession envAll sKey).clientConfig = some cfgW ∧
    cfgW.timeout = SshTimeout ∧
    (GetBasicSession envAll sKey).tcpKeepAlivePeriodArg = some TCPKeepAlivePeriod ∧
    (GetBasicSession envAll sKey).keepaliveTickPeriod = some timeMinute := by
  obtain ⟨-, -, -, -, -, h6, -, -, -, -⟩ := C9_fixed_protocol_parameters
  exact ⟨rfl, h6 envAll sKey cfgW rfl, rfl, rfl⟩

/-- Claim C10 (confirmed): `GetKubeConfig` and `GetKubeConfigBytes` both
run the fixed kubeconfig command through `ProcessCMDWithOutput` and agree:
on error they return `""` and `nil` respectively alongside that same
error, discarding captured output; on success the bytes pass through and
the text is exactly the string decoding of those bytes. -/
theorem C10_kubeconfig_agreement (env : Env) (s : sshProviderClient) :
    (GetKubeConfig env s).cmdRun = GetKubeconfigCommand ∧
    (GetKubeConfigBytes env s).cmdRun = GetKubeconfigCommand ∧
    (GetKubeConfig env s).err = (ProcessCMDWithOutput env s GetKubeconfigCommand).err ∧
    (GetKubeConfigBytes env s).err = (ProcessCMDWithOutput env s GetKubeconfigCommand).err ∧
    (∀ e, (ProcessCMDWithOutput env s GetKubeconfigCommand).err = some e →
       (GetKubeConfig env s).text = [] ∧
       (GetKubeConfigBytes env s).bytes = none) ∧
    ((ProcessCMDWithOutput env s GetKubeconfigCommand).err = none →
       (GetKubeConfigBytes env s).bytes
         = (ProcessCMDWithOutput env s GetKubeconfigCommand).bytes ∧
       (GetKubeConfig env s).text
         = goString (ProcessCMDWithOutput env s GetKubeconfigCommand).bytes) := by
  unfold GetKubeConfig GetKubeConfigBytes
  cases herr : (ProcessCMDWithOutput env s GetKubeconfigCommand).err <;>
    simp [herr]

/-- Witness for C10: a run that exits 2 discards its captured byte of
output on both retrieval paths; a successful run passes its bytes through. -/
theorem C10_kubeconfig_agreement_witness :
    (GetKubeConfig envExit2 sKey).text = [] ∧
    (GetKubeConfigBytes envExit2 sKey).bytes = none ∧
    (GetKubeConfigBytes envAll sKey).bytes
      = (ProcessCMDWithOutput envAll sKey GetKubeconfigCommand).bytes ∧
    (GetKubeConfig envAll sKey).text
      = goString (ProcessCMDWithOutput envAll sKey GetKubeconfigCommand).bytes := by
  have h1 := (C10_kubeconfig_agreement envExit2 sKey).2.2.2.2.1
    "Process exited with status 2" rfl
  have h2 := (C10_kubeconfig_agreement envAll sKey).2.2.2.2.2 rfl
  exact ⟨h1.1, h1.2, h2.1, h2.2⟩
